import Mathlib

/-!
Verification of the tracking-number validation library `packages.js`
(UPS, FedEx Express, FedEx Ground, USPS validators, dispatcher and URL
builder).  Strings are modelled as lists of characters; JavaScript's
`%` on possibly negative integers is modelled by `jsMod`, `Math.floor`
division by `Int.fdiv`, and the loose comparison `check == str[i]`
between a number and a one-character string by `jsEqNum` (a digit
character reads as its value, a whitespace character as 0, anything
else as NaN, which compares unequal to every number).
-/

abbrev Str := List Char

/-- Code points matched by JavaScript's `\s` (used by `trim`). -/
def jsWsCodes : List Nat :=
  [9, 10, 11, 12, 13, 32, 160, 5760, 8232, 8233, 8239, 8287, 12288, 65279]

def isJsWhitespace (c : Char) : Bool :=
  decide (c.toNat ∈ jsWsCodes) || (decide (8192 ≤ c.toNat) && decide (c.toNat ≤ 8202))

/-- `String.prototype.trim`: strip leading and trailing `\s` characters. -/
def jsTrim (l : Str) : Str :=
  ((l.dropWhile isJsWhitespace).reverse.dropWhile isJsWhitespace).reverse

/-- Membership in the source's `ValidChars = "0123456789"`. -/
def isDigitChar (c : Char) : Bool :=
  decide (48 ≤ c.toNat) && decide (c.toNat ≤ 57)

/-- `Number(c)` for a digit character. -/
def digitVal (c : Char) : Nat := c.toNat - 48

/-- JavaScript `ToNumber` of a one-character string: a digit maps to its
value, a whitespace character to 0, everything else to NaN (`none`). -/
def charToNum? (c : Char) : Option Int :=
  if isDigitChar c then some (digitVal c)
  else if isJsWhitespace c then some 0
  else none

/-- The loose comparison `x == c` between a number and a one-character
string (NaN compares unequal to everything). -/
def jsEqNum (x : Int) (c : Char) : Bool :=
  match charToNum? c with
  | some v => x == v
  | none => false

/-- JavaScript's `%`: remainder with the sign of the dividend. -/
def jsMod (a b : Int) : Int :=
  if a < 0 then -((-a) % b) else a % b

/-- One character's contribution to the UPS running total
(`packages.js` lines 69-86): 0-based index `i`; even 1-indexed
positions double digits and fold other characters by
`(charCode - 63) % 10`; odd positions take digits as-is and map other
characters by `2*n - 9*floor(n/5)` with `n = (charCode - 63) % 10`. -/
def upsStep (i : Nat) (c : Char) : Int :=
  if (i + 1) % 2 = 0 then
    if isDigitChar c then 2 * (digitVal c : Int)
    else jsMod ((c.toNat : Int) - 63) 10
  else
    if isDigitChar c then (digitVal c : Int)
    else 2 * jsMod ((c.toNat : Int) - 63) 10 -
      9 * Int.fdiv (jsMod ((c.toNat : Int) - 63) 10) 5

/-- The UPS `iRunningTotal` over the 15-character body. -/
def upsTotalAux : Str → Nat → Int
  | [], _ => 0
  | c :: rest, i => upsStep i c + upsTotalAux rest (i + 1)

/-- The final comparison of `_validUPS` (lines 88-94): with
`digit = iRunningTotal % 10`, return true outright when `digit == check`
or `digit <= 0`, otherwise compare `10 - digit` with the check character. -/
def upsCheckDigit (digit : Int) (check : Char) : Bool :=
  if jsEqNum digit check = false ∧ 0 < digit then jsEqNum (10 - digit) check
  else true

/-- `_validUPS` after the initial `trim` (lines 57-94). -/
def upsCheckTrimmed (number : Str) : Bool :=
  if number.length = 18 then
    if number.take 2 = ['1', 'Z'] then
      upsCheckDigit (jsMod (upsTotalAux ((number.drop 2).take 15) 0) 10)
        (number.getD 17 ' ')
    else false
  else false

def _validUPS (raw : Str) : Bool := upsCheckTrimmed (jsTrim raw)

/-- `values[i % 3]` with `values = [3, 1, 7]` (line 106). -/
def expressWeight (i : Nat) : Nat := [3, 1, 7].getD (i % 3) 0

/-- The FedEx Express loop (lines 109-117): weighted total of the first
11 characters, `none` when one of them is not a digit. -/
def expressSumAux : Str → Nat → Option Nat
  | [], _ => some 0
  | c :: rest, i =>
    if isDigitChar c then
      match expressSumAux rest (i + 1) with
      | some t => some (digitVal c * expressWeight i + t)
      | none => none
    else none

/-- `_validFedexExpress` after the initial `trim` (lines 103-124). -/
def expressCheckTrimmed (number : Str) : Bool :=
  if number.length = 12 then
    match expressSumAux (number.take 11) 0 with
    | none => false
    | some total =>
      jsEqNum ((if total % 11 = 10 then 0 else total % 11 : Nat) : Int)
        (number.getD 11 ' ')
  else false

def _validFedexExpress (raw : Str) : Bool := expressCheckTrimmed (jsTrim raw)

/-- The shared right-to-left loop of FedEx Ground (lines 141-151) and USPS
(lines 173-183): splits the digits of the first `w - 1` window characters
into the even accumulator (`(w - i) % 2 == 0`) and the odd one, `none`
when a character is not a digit. -/
def rtlAux (w : Nat) : Str → Nat → Option (Nat × Nat)
  | [], _ => some (0, 0)
  | c :: rest, i =>
    if isDigitChar c then
      match rtlAux w rest (i + 1) with
      | some (e, o) =>
        if (w - i) % 2 = 0 then some (e + digitVal c, o)
        else some (e, o + digitVal c)
      | none => none
    else none

/-- The final comparison of FedEx Ground and USPS (lines 154-156, 186-189):
`check = 10 - (total % 10)`, compared loosely with the window's last
character.  Note the value is not reduced mod 10. -/
def rtlCheckDigit (total : Nat) (c : Char) : Bool :=
  jsEqNum ((10 : Int) - (total % 10 : Nat)) c

/-- `_validFedexGround` after the initial `trim` (lines 133-156). -/
def fgCheckTrimmed (number : Str) : Bool :=
  if number.length < 15 ∨
      ¬(number.take 2 = ['9', '6'] ∨ number.take 2 = ['0', '0']) then false
  else
    match rtlAux 15 ((number.drop (number.length - 15)).take 14) 0 with
    | none => false
    | some (e, o) =>
      rtlCheckDigit (e * 3 + o) ((number.drop (number.length - 15)).getD 14 ' ')

def _validFedexGround (raw : Str) : Bool := fgCheckTrimmed (jsTrim raw)

/-- `valid_prefix = ["91","71","73","77","81"]` (line 165). -/
def uspsServiceCodes : List Str :=
  [['9', '1'], ['7', '1'], ['7', '3'], ['7', '7'], ['8', '1']]

/-- `_validUSPS` after the initial `trim` (lines 165-189). -/
def uspsCheckTrimmed (number : Str) : Bool :=
  if number.length < 22 ∨ ¬(number.take 2 ∈ uspsServiceCodes) ∨
      number.take 3 = ['4', '2', '0'] then false
  else
    match rtlAux 22 ((number.drop (number.length - 22)).take 21) 0 with
    | none => false
    | some (e, o) =>
      rtlCheckDigit (e * 3 + o) ((number.drop (number.length - 22)).getD 21 ' ')

def _validUSPS (raw : Str) : Bool := uspsCheckTrimmed (jsTrim raw)

/-- The USPS validator with the `number.substr(0,3) == "420"` exclusion
clause removed from the gate, kept otherwise identical; used to state the
refinement claim that the clause never decides the outcome. -/
def uspsCheckTrimmedNo420 (number : Str) : Bool :=
  if number.length < 22 ∨ ¬(number.take 2 ∈ uspsServiceCodes) then false
  else
    match rtlAux 22 ((number.drop (number.length - 22)).take 21) 0 with
    | none => false
    | some (e, o) =>
      rtlCheckDigit (e * 3 + o) ((number.drop (number.length - 22)).getD 21 ' ')

def validUSPS_no420 (raw : Str) : Bool := uspsCheckTrimmedNo420 (jsTrim raw)

/-- The dispatcher's closed result enumeration: `"ups"`, `"fedex"`,
`"usps"` or `undefined` (modelled by `Option Carrier`). -/
inductive Carrier where
  | ups
  | fedex
  | usps
deriving DecidableEq

/-- `IsTrackingNumber` (lines 196-205). -/
def IsTrackingNumber (number : Str) : Option Carrier :=
  if _validUPS number then some Carrier.ups
  else if _validFedexExpress number || _validFedexGround number then some Carrier.fedex
  else if _validUSPS number then some Carrier.usps
  else none

def upsTrackingBase : Str :=
  "http://wwwapps.ups.com/tracking/tracking.cgi?tracknum=".data

def fedexTrackingBase : Str :=
  "http://www.fedex.com/Tracking?tracknumbers=".data

def uspsTrackingBase : Str :=
  "http://trkcnfrm1.smi.usps.com/PTSInternetWeb/InterLabelInquiry.do?strOrigTrackNum=".data

/-- `GetTrackingURL` (lines 211-220): the raw argument is appended to the
matching carrier's template. -/
def GetTrackingURL (number : Str) : Option Str :=
  if IsTrackingNumber number = some Carrier.ups then
    some (upsTrackingBase ++ number)
  else if IsTrackingNumber number = some Carrier.fedex then
    some (fedexTrackingBase ++ number)
  else if IsTrackingNumber number = some Carrier.usps then
    some (uspsTrackingBase ++ number)
  else none

/-- The URL template of each carrier tag. -/
def carrierURL : Carrier → Str
  | Carrier.ups => upsTrackingBase
  | Carrier.fedex => fedexTrackingBase
  | Carrier.usps => uspsTrackingBase

/-- Length-and-prefix gate of the UPS validator (lines 57, 61). -/
def upsGateB (s : Str) : Bool :=
  decide (s.length = 18) && decide (s.take 2 = ['1', 'Z'])

/-- Length-and-digits gate of the FedEx Express validator (lines 103, 111). -/
def expressGateB (s : Str) : Bool :=
  decide (s.length = 12) && (s.take 11).all isDigitChar

/-- Length-and-prefix gate of the FedEx Ground validator (line 134). -/
def fgGateB (s : Str) : Bool :=
  decide (15 ≤ s.length) &&
    (decide (s.take 2 = ['9', '6']) || decide (s.take 2 = ['0', '0']))

/-- Length-and-prefix gate of the USPS validator (line 166). -/
def uspsGateB (s : Str) : Bool :=
  decide (22 ≤ s.length) && decide (s.take 2 ∈ uspsServiceCodes) &&
    !(decide (s.take 3 = ['4', '2', '0']))

/-- Even-position digit sum of the right-to-left scheme, stated directly
(positions `i` with `(w - i) % 2 == 0`). -/
def rtlEvenSum (w : Nat) : Str → Nat → Nat
  | [], _ => 0
  | c :: rest, i =>
    (if (w - i) % 2 = 0 then digitVal c else 0) + rtlEvenSum w rest (i + 1)

/-- Odd-position digit sum of the right-to-left scheme. -/
def rtlOddSum (w : Nat) : Str → Nat → Nat
  | [], _ => 0
  | c :: rest, i =>
    (if (w - i) % 2 = 0 then 0 else digitVal c) + rtlOddSum w rest (i + 1)

/-- The FedEx Express weighted total, stated directly on the digit list. -/
def expressTotal : Str → Nat → Nat
  | [], _ => 0
  | c :: rest, i => digitVal c * expressWeight i + expressTotal rest (i + 1)

/-- Rightmost-15-character window of the trimmed candidate. -/
def fgWindow (s : Str) : Str := (jsTrim s).drop ((jsTrim s).length - 15)

/-- Rightmost-22-character window of the trimmed candidate. -/
def uspsWindow (s : Str) : Str := (jsTrim s).drop ((jsTrim s).length - 22)

/-- FedEx Ground weighted total `3 * evenSum + oddSum` of the window. -/
def fgTotal (s : Str) : Nat :=
  3 * rtlEvenSum 15 ((fgWindow s).take 14) 0 + rtlOddSum 15 ((fgWindow s).take 14) 0

/-- USPS weighted total `3 * evenSum + oddSum` of the window. -/
def uspsTotal (s : Str) : Nat :=
  3 * rtlEvenSum 22 ((uspsWindow s).take 21) 0 + rtlOddSum 22 ((uspsWindow s).take 21) 0

/-- ASCII letter test, used to state the body-alphabet claim about UPS. -/
def isAsciiLetter (c : Char) : Bool :=
  (decide (65 ≤ c.toNat) && decide (c.toNat ≤ 90)) ||
    (decide (97 ≤ c.toNat) && decide (c.toNat ≤ 122))

/-- The UPS test string used by the concrete dispatcher scenario. -/
def upsSample : Str := "1Z999AA10123456784".data

/-! ### Basic lemmas about the character encoding -/

lemma digitVal_lt_10 {c : Char} (h : isDigitChar c = true) : digitVal c < 10 := by
  simp only [isDigitChar, Bool.and_eq_true, decide_eq_true_eq] at h
  simp only [digitVal]
  omega

lemma charToNum_digit {c : Char} (h : isDigitChar c = true) :
    charToNum? c = some ((digitVal c : Int)) := by
  simp [charToNum?, h]

lemma jsEqNum_true_iff (x : Int) (c : Char) :
    jsEqNum x c = true ↔ charToNum? c = some x := by
  unfold jsEqNum
  cases h : charToNum? c with
  | none => simp
  | some v =>
    simp only [beq_iff_eq, Option.some.injEq]
    exact eq_comm

lemma charToNum_eq_some_pos {c : Char} {x : Int} (hx : 0 < x)
    (h : charToNum? c = some x) : isDigitChar c = true ∧ (digitVal c : Int) = x := by
  unfold charToNum? at h
  split_ifs at h with hd hw
  · exact ⟨hd, by injection h⟩
  · exfalso
    injection h with h'
    omega

lemma charToNum_of_digit_eq {c : Char} {x : Int} (hd : isDigitChar c = true)
    (hv : (digitVal c : Int) = x) : charToNum? c = some x := by
  rw [← hv]
  exact charToNum_digit hd

lemma jsMod_le_9 (a : Int) : jsMod a 10 ≤ 9 := by
  unfold jsMod
  split
  · have := Int.emod_nonneg (-a) (b := 10) (by omega)
    omega
  · have := Int.emod_lt_of_pos a (b := 10) (by omega)
    omega

lemma neg9_le_jsMod (a : Int) : -9 ≤ jsMod a 10 := by
  unfold jsMod
  split
  · have := Int.emod_lt_of_pos (-a) (b := 10) (by omega)
    omega
  · have := Int.emod_nonneg a (b := 10) (by omega)
    omega

/-! ### Lemmas about `jsTrim` -/

lemma head_dropWhile_not (p : Char → Bool) (d : Char) :
    ∀ l : Str, l.dropWhile p ≠ [] → p ((l.dropWhile p).headD d) = false := by
  intro l
  induction l with
  | nil => intro h; simp [List.dropWhile] at h
  | cons c rest ih =>
    intro h
    rw [List.dropWhile_cons] at h ⊢
    by_cases hc : p c = true
    · simp only [hc, if_true] at h ⊢
      exact ih h
    · simp only [Bool.not_eq_true] at hc
      simp [hc]

lemma dropWhile_eq_self_of_head (p : Char → Bool) (l : Str)
    (h : p (l.headD 'A') = false) : l.dropWhile p = l := by
  cases l with
  | nil => rfl
  | cons c rest =>
    simp only [List.headD_cons] at h
    simp [List.dropWhile_cons, h]

lemma jsTrim_eq_self {l : Str} (h1 : isJsWhitespace (l.headD 'A') = false)
    (h2 : isJsWhitespace (l.reverse.headD 'A') = false) : jsTrim l = l := by
  unfold jsTrim
  rw [dropWhile_eq_self_of_head _ _ h1, dropWhile_eq_self_of_head _ _ h2,
    List.reverse_reverse]

lemma jsTrim_reverse_headD_not_ws (l : Str) (d : Char) (h : jsTrim l ≠ []) :
    isJsWhitespace ((jsTrim l).reverse.headD d) = false := by
  unfold jsTrim at h ⊢
  rw [List.reverse_reverse]
  apply head_dropWhile_not
  intro hnil
  apply h
  rw [hnil, List.reverse_nil]

/-! ### Lemmas about list indexing -/

lemma headD_append (xs ys : Str) (d : Char) (h : xs ≠ []) :
    (xs ++ ys).headD d = xs.headD d := by
  cases xs with
  | nil => exact absurd rfl h
  | cons a l => simp

lemma getD_last_eq_reverse_headD :
    ∀ (l : Str) (d : Char), l.getD (l.length - 1) d = l.reverse.headD d := by
  intro l
  induction l with
  | nil => intro d; rfl
  | cons c rest ih =>
    intro d
    cases hr : rest with
    | nil => simp
    | cons c2 r2 =>
      rw [← hr]
      have hlen : (c :: rest).length - 1 = rest.length - 1 + 1 := by
        rw [hr]; simp
      rw [hlen, List.getD_cons_succ, ih d, List.reverse_cons,
        headD_append _ _ _ (by rw [hr]; simp)]

lemma take_len_append (xs ys : Str) : (xs ++ ys).take xs.length = xs := by
  induction xs with
  | nil => simp
  | cons a l ih => simp [ih]

lemma getD_len_append (xs : Str) (c : Char) (ys : Str) (d : Char) :
    (xs ++ c :: ys).getD xs.length d = c := by
  induction xs with
  | nil => rfl
  | cons a l ih => simpa using ih

/-! ### The right-to-left loop and the Express loop on all-digit input -/

lemma rtlAux_all_digits (w : Nat) :
    ∀ (l : Str) (i : Nat), l.all isDigitChar = true →
      rtlAux w l i = some (rtlEvenSum w l i, rtlOddSum w l i) := by
  intro l
  induction l with
  | nil => intro i _; rfl
  | cons c rest ih =>
    intro i h
    rw [List.all_cons, Bool.and_eq_true] at h
    rw [rtlAux, ih (i + 1) h.2, rtlEvenSum, rtlOddSum]
    simp only [h.1, if_true]
    by_cases hp : (w - i) % 2 = 0
    · simp [hp, Nat.add_comm]
    · simp [hp, Nat.add_comm]

lemma rtlAux_not_all_digits (w : Nat) :
    ∀ (l : Str) (i : Nat), l.all isDigitChar = false → rtlAux w l i = none := by
  intro l
  induction l with
  | nil => intro i h; simp at h
  | cons c rest ih =>
    intro i h
    rw [List.all_cons, Bool.and_eq_false_iff] at h
    rw [rtlAux]
    rcases h with h | h
    · simp [h]
    · rw [ih (i + 1) h]
      by_cases hc : isDigitChar c = true <;> simp [hc]

lemma expressSumAux_all_digits :
    ∀ (l : Str) (i : Nat), l.all isDigitChar = true →
      expressSumAux l i = some (expressTotal l i) := by
  intro l
  induction l with
  | nil => intro i _; rfl
  | cons c rest ih =>
    intro i h
    rw [List.all_cons, Bool.and_eq_true] at h
    rw [expressSumAux, ih (i + 1) h.2, expressTotal]
    simp [h.1]

lemma expressSumAux_not_all_digits :
    ∀ (l : Str) (i : Nat), l.all isDigitChar = false → expressSumAux l i = none := by
  intro l
  induction l with
  | nil => intro i h; simp at h
  | cons c rest ih =>
    intro i h
    rw [List.all_cons, Bool.and_eq_false_iff] at h
    rw [expressSumAux]
    rcases h with h | h
    · simp [h]
    · rw [ih (i + 1) h]
      by_cases hc : isDigitChar c = true <;> simp [hc]

/-! ### The two check-digit comparisons, characterised -/

lemma rtlCheckDigit_iff (total : Nat) (c : Char) :
    rtlCheckDigit total c = true ↔
      (total % 10 ≠ 0 ∧ isDigitChar c = true ∧ digitVal c = 10 - total % 10) := by
  unfold rtlCheckDigit
  rw [jsEqNum_true_iff]
  have hm : total % 10 < 10 := Nat.mod_lt _ (by omega)
  constructor
  · intro h
    have h1 := charToNum_eq_some_pos (by omega) h
    have h2 := digitVal_lt_10 h1.1
    refine ⟨by omega, h1.1, by omega⟩
  · rintro ⟨h0, hd, hv⟩
    exact charToNum_of_digit_eq hd (by omega)

lemma upsCheckDigit_iff (d : Int) (hlo : -9 ≤ d) (hhi : d ≤ 9) (c : Char) :
    upsCheckDigit d c = true ↔
      (d ≤ 0 ∨ (isDigitChar c = true ∧
        ((digitVal c : Int) = d ∨ (digitVal c : Int) = 10 - d))) := by
  unfold upsCheckDigit
  by_cases h0 : 0 < d
  · by_cases he : jsEqNum d c = true
    · rw [if_neg (by simp [he])]
      have h1 := charToNum_eq_some_pos h0 ((jsEqNum_true_iff d c).mp he)
      simp only [true_iff]
      exact Or.inr ⟨h1.1, Or.inl h1.2⟩
    · rw [Bool.not_eq_true] at he
      rw [if_pos ⟨he, h0⟩, jsEqNum_true_iff]
      constructor
      · intro h
        have h1 := charToNum_eq_some_pos (by omega) h
        exact Or.inr ⟨h1.1, Or.inr h1.2⟩
      · rintro (h | ⟨hd, hv | hv⟩)
        · omega
        · exfalso
          have : jsEqNum d c = true :=
            (jsEqNum_true_iff d c).mpr (charToNum_of_digit_eq hd hv)
          rw [this] at he
          exact absurd he (by simp)
        · exact charToNum_of_digit_eq hd hv
  · rw [if_neg (by intro hcon; exact h0 hcon.2)]
    simp only [true_iff]
    exact Or.inl (by omega)

/-! ### UPS acceptance, characterised -/

lemma upsCheckTrimmed_eq (number : Str) (h2 : number.length = 18)
    (h3 : number.take 2 = ['1', 'Z']) :
    upsCheckTrimmed number =
      upsCheckDigit (jsMod (upsTotalAux ((number.drop 2).take 15) 0) 10)
        (number.getD 17 ' ') := by
  unfold upsCheckTrimmed
  rw [if_pos h2, if_pos h3]

lemma ups_accept_iff (number : Str) (h2 : number.length = 18)
    (h3 : number.take 2 = ['1', 'Z']) (d : Int)
    (hd : d = jsMod (upsTotalAux ((number.drop 2).take 15) 0) 10) :
    upsCheckTrimmed number = true ↔
      (d ≤ 0 ∨ (isDigitChar (number.getD 17 ' ') = true ∧
        ((digitVal (number.getD 17 ' ') : Int) = d ∨
          (digitVal (number.getD 17 ' ') : Int) = 10 - d))) := by
  rw [upsCheckTrimmed_eq number h2 h3, ← hd]
  exact upsCheckDigit_iff d (by rw [hd]; exact neg9_le_jsMod _)
    (by rw [hd]; exact jsMod_le_9 _) _

lemma digit_char_facts (n : Nat) (h : n ≤ 9) :
    isDigitChar (Char.ofNat (48 + n)) = true ∧
      digitVal (Char.ofNat (48 + n)) = n ∧
      isJsWhitespace (Char.ofNat (48 + n)) = false := by
  interval_cases n <;> exact ⟨by decide, by decide, by decide⟩

lemma getD_cons_cons (a b : Char) (l : Str) (n : Nat) (d : Char) :
    (a :: b :: l).getD (n + 2) d = l.getD n d := by
  simp [List.getD_cons_succ]

/-- Replacing the 18th character of a gated UPS candidate: the validator
accepts the modified string exactly by the check-digit rule on the new
final character (the body, hence the running total, is unchanged). -/
lemma ups_modified_accept (t : Str) (ht : t.length = 16) (c : Char)
    (hc : isJsWhitespace c = false) (d : Int)
    (hd : d = jsMod (upsTotalAux (t.take 15) 0) 10)
    (hacc : d ≤ 0 ∨ (isDigitChar c = true ∧
      ((digitVal c : Int) = d ∨ (digitVal c : Int) = 10 - d))) :
    _validUPS ('1' :: 'Z' :: (t.take 15 ++ [c])) = true := by
  have hlen15 : (t.take 15).length = 15 := by
    rw [List.length_take]; omega
  have hmlen : ('1' :: 'Z' :: (t.take 15 ++ [c])).length = 18 := by
    simp [hlen15]
  have htrim : jsTrim ('1' :: 'Z' :: (t.take 15 ++ [c])) =
      '1' :: 'Z' :: (t.take 15 ++ [c]) := by
    apply jsTrim_eq_self
    · simp only [List.headD_cons]
      decide
    · have hrev : ('1' :: 'Z' :: (t.take 15 ++ [c])).reverse.headD 'A' = c := by
        simp [List.reverse_cons, List.reverse_append]
      rw [hrev]
      exact hc
  have hbody : ((('1' :: 'Z' :: (t.take 15 ++ [c])).drop 2).take 15) = t.take 15 := by
    simp only [List.drop_succ_cons, List.drop_zero]
    have h := take_len_append (t.take 15) [c]
    rwa [hlen15] at h
  have hcheck : ('1' :: 'Z' :: (t.take 15 ++ [c])).getD 17 ' ' = c := by
    rw [show (17 : Nat) = 15 + 2 from rfl, getD_cons_cons]
    have h := getD_len_append (t.take 15) c [] ' '
    rwa [hlen15] at h
  unfold _validUPS
  rw [htrim, ups_accept_iff _ hmlen rfl d (by rw [hbody]; exact hd), hcheck]
  exact hacc

/-! ### Claim theorems -/

/-- Claim C2 (amended): the UPS validator returns false whenever the trimmed
input is not exactly 18 characters long or does not begin with "1Z";
acceptance is only possible when both gates hold.  (The claim's third
condition — rejection of body characters outside digits and letters — does
not hold; see the counterexample.) -/
theorem ups_gate_necessary (s : Str)
    (h : (jsTrim s).length ≠ 18 ∨ (jsTrim s).take 2 ≠ ['1', 'Z']) :
    _validUPS s = false := by
  unfold _validUPS upsCheckTrimmed
  rcases h with h | h
  · rw [if_neg h]
  · by_cases h1 : (jsTrim s).length = 18
    · rw [if_pos h1, if_neg h]
    · rw [if_neg h1]

/-- Claim C2, witness: a 2-character input fails the UPS length gate. -/
theorem ups_gate_necessary_witness :
    (jsTrim "1Z".data).length ≠ 18 ∧ _validUPS "1Z".data = false :=
  ⟨by decide, ups_gate_necessary _ (Or.inl (by decide))⟩

/-- Claim C2, counterexample to the claim as stated: the 18-character
candidate "1Z?000000000000000" satisfies both gates, its body contains the
character '?' which is neither a decimal digit nor a letter, and the UPS
validator nevertheless accepts it (the body loop folds every non-digit
through the `(charCode - 63) % 10` mapping instead of rejecting). -/
theorem ups_accepts_nonalnum_body :
    _validUPS "1Z?000000000000000".data = true ∧
    (jsTrim "1Z?000000000000000".data).length = 18 ∧
    (jsTrim "1Z?000000000000000".data).take 2 = ['1', 'Z'] ∧
    '?' ∈ ((jsTrim "1Z?000000000000000".data).drop 2).take 15 ∧
    isDigitChar '?' = false ∧ isAsciiLetter '?' = false := by
  exact ⟨by decide, by decide, by decide, by decide, by decide, by decide⟩

/-- Claim C3 (amended): the dispatcher classifies "1Z999AA10123456784" as
UPS — the string is exactly 18 characters long (not 19), begins with "1Z"
and satisfies the UPS check-digit rule, so strict length enforcement does
not reject it. -/
theorem classify_upsSample_is_ups :
    IsTrackingNumber upsSample = some Carrier.ups ∧ upsSample.length = 18 := by
  exact ⟨by decide, by decide⟩

/-- Claim C3, counterexample to the claim as stated: the dispatcher does
not return `none` on "1Z999AA10123456784". -/
theorem classify_upsSample_ne_none : IsTrackingNumber upsSample ≠ none := by
  decide

/-- Claim C5: the dispatcher tries UPS, then FedEx Express or Ground, then
USPS, returning the first accepting carrier's tag, and `none` exactly when
no validator accepts. -/
theorem dispatcher_order (s : Str) :
    (IsTrackingNumber s = some Carrier.ups ↔ _validUPS s = true) ∧
    (IsTrackingNumber s = some Carrier.fedex ↔
      (_validUPS s = false ∧
        (_validFedexExpress s = true ∨ _validFedexGround s = true))) ∧
    (IsTrackingNumber s = some Carrier.usps ↔
      (_validUPS s = false ∧ _validFedexExpress s = false ∧
        _validFedexGround s = false ∧ _validUSPS s = true)) ∧
    (IsTrackingNumber s = none ↔
      (_validUPS s = false ∧ _validFedexExpress s = false ∧
        _validFedexGround s = false ∧ _validUSPS s = false)) := by
  cases h1 : _validUPS s <;> cases h2 : _validFedexExpress s <;>
    cases h3 : _validFedexGround s <;> cases h4 : _validUSPS s <;>
      simp [IsTrackingNumber, h1, h2, h3, h4]

/-- Claim C6: the URL builder returns `none` exactly when the dispatcher
classifies the input as no carrier, and otherwise appends the raw input
verbatim to the classified carrier's fixed URL template. -/
theorem trackingURL_template (s : Str) :
    GetTrackingURL s = Option.map (fun t => carrierURL t ++ s) (IsTrackingNumber s) ∧
    (GetTrackingURL s = none ↔ IsTrackingNumber s = none) := by
  cases h : IsTrackingNumber s with
  | none => simp [GetTrackingURL, h]
  | some c => cases c <;> simp [GetTrackingURL, carrierURL, h]

/-- Claim C7: any input whose trimmed form is shorter than 12 characters
(the shortest length any carrier requires) is classified as no carrier:
every validator's length gate fails. -/
theorem classify_short_none (s : Str) (h : (jsTrim s).length < 12) :
    IsTrackingNumber s = none := by
  have hu : _validUPS s = false := by
    unfold _validUPS upsCheckTrimmed
    rw [if_neg (by omega)]
  have he : _validFedexExpress s = false := by
    unfold _validFedexExpress expressCheckTrimmed
    rw [if_neg (by omega)]
  have hg : _validFedexGround s = false := by
    unfold _validFedexGround fgCheckTrimmed
    rw [if_pos (Or.inl (by omega))]
  have hp : _validUSPS s = false := by
    unfold _validUSPS uspsCheckTrimmed
    rw [if_pos (Or.inl (by omega))]
  simp [IsTrackingNumber, hu, he, hg, hp]

/-- Claim C7, witness: the 3-character input "123" is classified as none. -/
theorem classify_short_none_witness :
    (jsTrim "123".data).length < 12 ∧ IsTrackingNumber "123".data = none :=
  ⟨by decide, classify_short_none _ (by decide)⟩

/-- Any string whose first two characters form a USPS service code cannot
have "420" as its first three characters. -/
lemma codes_take3_ne_420 (l : Str) (h : l.take 2 ∈ uspsServiceCodes) :
    l.take 3 ≠ ['4', '2', '0'] := by
  intro h420
  have h2 : l.take 2 = ['4', '2'] := by
    have ht : (l.take 3).take 2 = l.take 2 := by
      rw [List.take_take]
      norm_num
    rw [h420] at ht
    exact ht.symm
  rw [h2] at h
  exact absurd h (by decide)

/-- Claim C10: the `substr(0,3) == "420"` clause of the USPS gate never
decides the outcome — whenever the trimmed input starts with "420" the
two-character service-code test already fails — so the USPS validator with
the clause removed is extensionally equal to the original. -/
theorem usps_420_clause_redundant :
    (∀ s : Str, (jsTrim s).take 3 = ['4', '2', '0'] →
      ¬((jsTrim s).take 2 ∈ uspsServiceCodes)) ∧
    (∀ s : Str, validUSPS_no420 s = _validUSPS s) := by
  constructor
  · intro s h3 hmem
    exact codes_take3_ne_420 _ hmem h3
  · intro s
    unfold validUSPS_no420 _validUSPS uspsCheckTrimmedNo420 uspsCheckTrimmed
    by_cases h1 : (jsTrim s).length < 22
    · rw [if_pos (Or.inl h1), if_pos (Or.inl h1)]
    · by_cases h2 : (jsTrim s).take 2 ∈ uspsServiceCodes
      · have h3 := codes_take3_ne_420 _ h2
        rw [if_neg (by push_neg; exact ⟨by omega, h2⟩),
          if_neg (by push_neg; exact ⟨by omega, h2, h3⟩)]
      · rw [if_pos (Or.inr h2), if_pos (Or.inr (Or.inl h2))]

/-- Claim C10, witness: on the input "420" the two-character service-code
test already fails. -/
theorem usps_420_clause_redundant_witness :
    (jsTrim "420".data).take 3 = ['4', '2', '0'] ∧
    ¬((jsTrim "420".data).take 2 ∈ uspsServiceCodes) :=
  ⟨by decide, usps_420_clause_redundant.1 _ (by decide)⟩

/-- Claim C4: the FedEx Express validator accepts exactly the strings whose
trimmed form has length 12, whose first 11 characters are decimal digits,
and whose cyclically `[3,1,7]`-weighted digit sum, taken mod 11 with a
remainder of 10 mapped to 0, equals the 12th character read as a digit. -/
theorem fedexExpress_accepts_iff (s : Str) :
    _validFedexExpress s = true ↔
      ((jsTrim s).length = 12 ∧ ((jsTrim s).take 11).all isDigitChar = true ∧
        isDigitChar ((jsTrim s).getD 11 ' ') = true ∧
        (if expressTotal ((jsTrim s).take 11) 0 % 11 = 10 then 0
          else expressTotal ((jsTrim s).take 11) 0 % 11) =
          digitVal ((jsTrim s).getD 11 ' ')) := by
  unfold _validFedexExpress expressCheckTrimmed
  by_cases hlen : (jsTrim s).length = 12
  · rw [if_pos hlen]
    cases hall : ((jsTrim s).take 11).all isDigitChar
    · rw [expressSumAux_not_all_digits _ _ hall]
      simp [hall]
    · rw [expressSumAux_all_digits _ _ hall]
      show jsEqNum ((if expressTotal ((jsTrim s).take 11) 0 % 11 = 10 then 0
          else expressTotal ((jsTrim s).take 11) 0 % 11 : Nat) : Int)
          ((jsTrim s).getD 11 ' ') = true ↔ _
      rw [jsEqNum_true_iff]
      have hnw : isJsWhitespace ((jsTrim s).getD 11 ' ') = false := by
        have hne : jsTrim s ≠ [] := by
          intro hnil
          rw [hnil] at hlen
          simp at hlen
        have h11 : (jsTrim s).getD 11 ' ' = (jsTrim s).getD ((jsTrim s).length - 1) ' ' := by
          rw [hlen]
        rw [h11, getD_last_eq_reverse_headD]
        exact jsTrim_reverse_headD_not_ws _ _ hne
      generalize (if expressTotal ((jsTrim s).take 11) 0 % 11 = 10 then 0
          else expressTotal ((jsTrim s).take 11) 0 % 11) = K
      constructor
      · intro h
        unfold charToNum? at h
        split_ifs at h with hd hw
        · injection h with h'
          exact ⟨hlen, rfl, hd, by omega⟩
        · rw [hw] at hnw
          exact absurd hnw (by simp)
      · rintro ⟨-, -, hd, hv⟩
        rw [charToNum_digit hd, hv]
  · rw [if_neg hlen]
    simp [hlen]

/-- Claim C8: no string satisfies two different carriers' length-plus-prefix
gates — at most one of the four gate predicates holds on any string. -/
theorem carrier_gates_exclusive (s : Str) :
    (upsGateB s).toNat + (expressGateB s).toNat + (fgGateB s).toNat +
      (uspsGateB s).toNat ≤ 1 := by
  by_cases hu : upsGateB s = true
  · have h12 := hu
    simp only [upsGateB, Bool.and_eq_true, decide_eq_true_eq] at h12
    have he : expressGateB s = false := by simp [expressGateB, h12.1]
    have hf : fgGateB s = false := by simp [fgGateB, h12.2]
    have hp : uspsGateB s = false := by simp [uspsGateB, h12.1]
    rw [hu, he, hf, hp]
    decide
  · rw [Bool.not_eq_true] at hu
    by_cases he : expressGateB s = true
    · have h1 := he
      simp only [expressGateB, Bool.and_eq_true, decide_eq_true_eq] at h1
      have hf : fgGateB s = false := by simp [fgGateB, h1.1]
      have hp : uspsGateB s = false := by simp [uspsGateB, h1.1]
      rw [hu, he, hf, hp]
      decide
    · rw [Bool.not_eq_true] at he
      by_cases hf : fgGateB s = true
      · have h2 := hf
        simp only [fgGateB, Bool.and_eq_true, Bool.or_eq_true,
          decide_eq_true_eq] at h2
        have hp : uspsGateB s = false := by
          rcases h2.2 with h2' | h2' <;> simp [uspsGateB, h2', uspsServiceCodes]
        rw [hu, he, hf, hp]
        decide
      · rw [Bool.not_eq_true] at hf
        rw [hu, he, hf]
        cases hp : uspsGateB s <;> decide

/-- Claim C9: for every trimmed 18-character string beginning with "1Z",
with d the body running total taken `%` 10: when d = 0 the UPS validator
accepts regardless of the final character; when d > 0 it accepts exactly
when the final character, read as a digit, equals d or 10 - d; and whenever
d is outside {0, 5}, two distinct check characters validate the same
17-character prefix. -/
theorem ups_checkdigit_ambiguity (s : Str) (d : Int) (h1 : jsTrim s = s)
    (h2 : s.length = 18) (h3 : s.take 2 = ['1', 'Z'])
    (hd : d = jsMod (upsTotalAux ((s.drop 2).take 15) 0) 10) :
    (d = 0 → _validUPS s = true) ∧
    (0 < d → (_validUPS s = true ↔
      (isDigitChar (s.getD 17 ' ') = true ∧
        ((digitVal (s.getD 17 ' ') : Int) = d ∨
          (digitVal (s.getD 17 ' ') : Int) = 10 - d)))) ∧
    (d ≠ 0 → d ≠ 5 → ∃ c1 c2 : Char, c1 ≠ c2 ∧
      _validUPS (s.take 17 ++ [c1]) = true ∧
      _validUPS (s.take 17 ++ [c2]) = true) := by
  have hvalid : _validUPS s = upsCheckTrimmed s := by
    unfold _validUPS
    rw [h1]
  have hiff := ups_accept_iff s h2 h3 d hd
  refine ⟨?_, ?_, ?_⟩
  · intro h0
    rw [hvalid]
    exact hiff.mpr (Or.inl (by omega))
  · intro h0
    rw [hvalid, hiff]
    constructor
    · rintro (h | h)
      · exact absurd h (by omega)
      · exact h
    · intro h
      exact Or.inr h
  · intro hne0 hne5
    obtain ⟨a, b, t, rfl⟩ : ∃ a b t, s = a :: b :: t := by
      cases s with
      | nil => simp at h2
      | cons a s1 =>
        cases s1 with
        | nil => simp at h2
        | cons b t => exact ⟨a, b, t, rfl⟩
    have hab : a = '1' ∧ b = 'Z' := by
      have htk : (a :: b :: t).take 2 = [a, b] := rfl
      rw [htk] at h3
      simpa using h3
    obtain ⟨rfl, rfl⟩ := hab
    have ht : t.length = 16 := by
      simp at h2
      omega
    have htake17 : ('1' :: 'Z' :: t).take 17 = '1' :: 'Z' :: t.take 15 := rfl
    have hbody : ((('1' :: 'Z' :: t).drop 2).take 15) = t.take 15 := rfl
    rw [hbody] at hd
    have hdlo : -9 ≤ d := by rw [hd]; exact neg9_le_jsMod _
    have hdhi : d ≤ 9 := by rw [hd]; exact jsMod_le_9 _
    by_cases hpos : 0 < d
    · have f1 := digit_char_facts d.toNat (by omega)
      have f2 := digit_char_facts (10 - d).toNat (by omega)
      refine ⟨Char.ofNat (48 + d.toNat), Char.ofNat (48 + (10 - d).toNat),
        ?_, ?_, ?_⟩
      · intro heq
        have hv : digitVal (Char.ofNat (48 + d.toNat)) =
            digitVal (Char.ofNat (48 + (10 - d).toNat)) := by rw [heq]
        rw [f1.2.1, f2.2.1] at hv
        omega
      · rw [htake17]
        exact ups_modified_accept t ht _ f1.2.2 d hd
          (Or.inr ⟨f1.1, Or.inl (by rw [f1.2.1]; omega)⟩)
      · rw [htake17]
        exact ups_modified_accept t ht _ f2.2.2 d hd
          (Or.inr ⟨f2.1, Or.inr (by rw [f2.2.1]; omega)⟩)
    · refine ⟨'0', '1', by decide, ?_, ?_⟩
      · rw [htake17]
        exact ups_modified_accept t ht '0' (by decide) d hd (Or.inl (by omega))
      · rw [htake17]
        exact ups_modified_accept t ht '1' (by decide) d hd (Or.inl (by omega))

/-- Claim C9, witness: instantiated at "1Z999AA10123456784", whose body
running total is 96, so d = 6. -/
theorem ups_checkdigit_ambiguity_witness :
    (jsTrim upsSample = upsSample ∧ upsSample.length = 18 ∧
      upsSample.take 2 = ['1', 'Z'] ∧
      (6 : Int) = jsMod (upsTotalAux ((upsSample.drop 2).take 15) 0) 10) ∧
    (((6 : Int) = 0 → _validUPS upsSample = true) ∧
      (0 < (6 : Int) → (_validUPS upsSample = true ↔
        (isDigitChar (upsSample.getD 17 ' ') = true ∧
          ((digitVal (upsSample.getD 17 ' ') : Int) = 6 ∨
            (digitVal (upsSample.getD 17 ' ') : Int) = 10 - 6)))) ∧
      ((6 : Int) ≠ 0 → (6 : Int) ≠ 5 → ∃ c1 c2 : Char, c1 ≠ c2 ∧
        _validUPS (upsSample.take 17 ++ [c1]) = true ∧
        _validUPS (upsSample.take 17 ++ [c2]) = true)) :=
  ⟨⟨by decide, by decide, by decide, by decide⟩,
    ups_checkdigit_ambiguity upsSample 6 (by decide) (by decide) (by decide)
      (by decide)⟩

/-- The shared final branch of FedEx Ground and USPS, characterised:
acceptance needs `total % 10 ≠ 0` (otherwise the unreduced check value is
10, which matches no character) together with the last character being the
digit `10 - total % 10`. -/
lemma rtl_branch_iff (E O : Nat) (c : Char) :
    (rtlCheckDigit (E * 3 + O) c = true ↔
      ((3 * E + O) % 10 ≠ 0 ∧ isDigitChar c = true ∧
        digitVal c = 10 - (3 * E + O) % 10)) ∧
    ((3 * E + O) % 10 = 0 → rtlCheckDigit (E * 3 + O) c = false) := by
  have hco : E * 3 + O = 3 * E + O := by ring
  rw [hco]
  refine ⟨rtlCheckDigit_iff _ _, ?_⟩
  intro h0
  cases hb : rtlCheckDigit (3 * E + O) c
  · rfl
  · exact absurd ((rtlCheckDigit_iff _ _).mp hb).1 (by simp [h0])

/-- Claim C1 (amended): for every candidate passing the FedEx Ground gate
whose rightmost-15-character window has digits in its first 14 positions,
the validator accepts iff `total % 10 ≠ 0` and `10 - total % 10` equals the
window's last character read as a digit, with
`total = 3 * evenSum + oddSum`; in particular a window whose weighted total
is a multiple of 10 is never accepted, whatever its last character is.
The same rule, with window width 22, governs the USPS validator. -/
theorem rtl_mod10_check_rule :
    (∀ s : Str, 15 ≤ (jsTrim s).length →
      ((jsTrim s).take 2 = ['9', '6'] ∨ (jsTrim s).take 2 = ['0', '0']) →
      ((fgWindow s).take 14).all isDigitChar = true →
      ((_validFedexGround s = true ↔
        (fgTotal s % 10 ≠ 0 ∧ isDigitChar ((fgWindow s).getD 14 ' ') = true ∧
          digitVal ((fgWindow s).getD 14 ' ') = 10 - fgTotal s % 10)) ∧
        (fgTotal s % 10 = 0 → _validFedexGround s = false))) ∧
    (∀ s : Str, 22 ≤ (jsTrim s).length →
      (jsTrim s).take 2 ∈ uspsServiceCodes →
      (jsTrim s).take 3 ≠ ['4', '2', '0'] →
      ((uspsWindow s).take 21).all isDigitChar = true →
      ((_validUSPS s = true ↔
        (uspsTotal s % 10 ≠ 0 ∧ isDigitChar ((uspsWindow s).getD 21 ' ') = true ∧
          digitVal ((uspsWindow s).getD 21 ' ') = 10 - uspsTotal s % 10)) ∧
        (uspsTotal s % 10 = 0 → _validUSPS s = false))) := by
  constructor
  · intro s h15 hpre hall
    have hallw :
        (((jsTrim s).drop ((jsTrim s).length - 15)).take 14).all isDigitChar = true :=
      hall
    unfold _validFedexGround fgCheckTrimmed
    rw [if_neg (by push_neg; exact ⟨by omega, hpre⟩),
      rtlAux_all_digits 15 _ 0 hallw]
    exact rtl_branch_iff _ _ _
  · intro s h22 hpre h420 hall
    have hallw :
        (((jsTrim s).drop ((jsTrim s).length - 22)).take 21).all isDigitChar = true :=
      hall
    unfold _validUSPS uspsCheckTrimmed
    rw [if_neg (by push_neg; exact ⟨by omega, hpre, h420⟩),
      rtlAux_all_digits 22 _ 0 hallw]
    exact rtl_branch_iff _ _ _

/-- Claim C1, counterexample to the claim as stated: "963000000000000"
passes the FedEx Ground gate, the first 14 window characters are digits,
the weighted total is 30 — a multiple of 10 — and the last character is
'0', so the claimed reduced check digit `(10 - total % 10) % 10 = 0`
matches the last character; yet the validator rejects, because the code
compares the unreduced value 10 against a single character. -/
theorem fg_mod10_claim_counterexample :
    (15 ≤ (jsTrim "963000000000000".data).length ∧
      ((jsTrim "963000000000000".data).take 2 = ['9', '6'] ∨
        (jsTrim "963000000000000".data).take 2 = ['0', '0']) ∧
      ((fgWindow "963000000000000".data).take 14).all isDigitChar = true) ∧
    fgTotal "963000000000000".data = 30 ∧
    (10 - fgTotal "963000000000000".data % 10) % 10 =
      digitVal ((fgWindow "963000000000000".data).getD 14 ' ') ∧
    _validFedexGround "963000000000000".data = false := by
  exact ⟨⟨by decide, by decide, by decide⟩, by decide, by decide, by decide⟩

/-- Claim C1, witness: the amended rule instantiated at the accepted
FedEx Ground number "960000000000003" (total 27, check digit 3) and the
accepted USPS number "9100000000000000000002" (total 28, check digit 2). -/
theorem rtl_mod10_check_rule_witness :
    ((15 ≤ (jsTrim "960000000000003".data).length ∧
      ((jsTrim "960000000000003".data).take 2 = ['9', '6'] ∨
        (jsTrim "960000000000003".data).take 2 = ['0', '0']) ∧
      ((fgWindow "960000000000003".data).take 14).all isDigitChar = true) ∧
      ((_validFedexGround "960000000000003".data = true ↔
        (fgTotal "960000000000003".data % 10 ≠ 0 ∧
          isDigitChar ((fgWindow "960000000000003".data).getD 14 ' ') = true ∧
          digitVal ((fgWindow "960000000000003".data).getD 14 ' ') =
            10 - fgTotal "960000000000003".data % 10)) ∧
        (fgTotal "960000000000003".data % 10 = 0 →
          _validFedexGround "960000000000003".data = false))) ∧
    ((22 ≤ (jsTrim "9100000000000000000002".data).length ∧
      (jsTrim "9100000000000000000002".data).take 2 ∈ uspsServiceCodes ∧
      (jsTrim "9100000000000000000002".data).take 3 ≠ ['4', '2', '0'] ∧
      ((uspsWindow "9100000000000000000002".data).take 21).all isDigitChar = true) ∧
      ((_validUSPS "9100000000000000000002".data = true ↔
        (uspsTotal "9100000000000000000002".data % 10 ≠ 0 ∧
          isDigitChar ((uspsWindow "9100000000000000000002".data).getD 21 ' ') = true ∧
          digitVal ((uspsWindow "9100000000000000000002".data).getD 21 ' ') =
            10 - uspsTotal "9100000000000000000002".data % 10)) ∧
        (uspsTotal "9100000000000000000002".data % 10 = 0 →
          _validUSPS "9100000000000000000002".data = false))) :=
  ⟨⟨⟨by decide, by decide, by decide⟩,
      rtl_mod10_check_rule.1 _ (by decide) (by decide) (by decide)⟩,
    ⟨⟨by decide, by decide, by decide, by decide⟩,
      rtl_mod10_check_rule.2 _ (by decide) (by decide) (by decide) (by decide)⟩⟩
